import Mathlib

/-!
# PyLora: the CPython binding of the LoRa driver (`src/PyLora.c`)

A shallow embedding of the wrapper functions of `PyLora.c`.

* The native driver (`lora.h`) is outside the file.  Every call the wrappers make
  into it is appended to a trace, and what the driver answers is supplied per call by
  an `Env` record.
* The Python C API is outside the file as well.  The handful of API functions the
  wrappers use are modelled after their documented behaviour on a universe of
  argument objects (`PyObj`).
* C integers: `int` is 32 bits, `long` and `Py_ssize_t` are 64 bits (LP64).
* The wrapper functions are modelled as the C functions they are: they receive the
  argument tuple (and, for `set_pins`, the keyword dictionary) the interpreter hands
  them.
-/

namespace PyLora

/-! ## Data model -/

/-- One byte of a packet payload. -/
abbrev Byte := Fin 256

/-- Python objects that can be handed to the wrappers as arguments.  `bool` is a
subclass of `int`, so `True`/`False` are `int 1`/`int 0`.  Objects with an identity
that matters to the wrappers (those they may keep or hand on) carry an object id. -/
inductive PyObj where
  | none
  | int (v : Int)
  | float (tok : Nat)
  | str (s : String)
  | bytes (bs : List Byte)
  | bytearray (id : Nat) (bs : List Byte)
  | intSeq (items : List Int)
  | function (id : Nat)
  deriving DecidableEq, Repr

/-- Exceptions a wrapper can leave set when it returns `NULL`. -/
inductive PyErr where
  | RuntimeError (msg : String)
  | TypeError
  | ValueError
  | OverflowError
  | SystemError
  | MemoryError
  deriving DecidableEq, Repr

/-- New references a wrapper returns on success. -/
inductive Ret where
  | pyNone
  | pyTrue
  | pyFalse
  | long (v : Int)
  | float (tok : Nat)
  | bytearray (bs : List Byte)
  deriving DecidableEq, Repr

/-- Result of a wrapper: an object, or `NULL` with an exception set. -/
inductive PyResult where
  | ok (v : Ret)
  | null (e : PyErr)
  deriving DecidableEq, Repr

/-- Which bytearray object owns the buffer handed to `lora_send_packet`: the
caller's argument itself (`msg = arg`) or the new object made by
`PyByteArray_FromObject`. -/
inductive MsgOwner where
  | argument (id : Nat)
  | fresh
  deriving DecidableEq, Repr

/-- The function pointer given to `lora_on_receive`. -/
inductive Handler where
  | NULL
  | packet_received
  deriving DecidableEq, Repr

/-- Observable steps of the wrappers: driver entry points (named as in `lora.h`),
lock operations, the call of the registered callable and the read of the scratch
buffer. -/
inductive Event where
  | lora_initialized
  | lora_reset
  | lora_explicit_header_mode
  | lora_implicit_header_mode (size : Int)
  | lora_idle
  | lora_sleep
  | lora_receive
  | lora_set_tx_power (power : Int)
  | lora_set_frequency (freq : Int)
  | lora_set_spreading_factor (sf : Int)
  | lora_set_bandwidth (bw : Int)
  | lora_set_coding_rate (cr : Int)
  | lora_set_preamble_length (pre : Int)
  | lora_set_sync_word (w : Int)
  | lora_enable_crc
  | lora_disable_crc
  | lora_set_pins (spidev : Option String) (cs rst irq : Int)
  | lora_init
  | lora_packet_rssi
  | lora_packet_snr
  | lora_close
  | lora_send_packet (owner : MsgOwner) (buf : List Byte) (size : Int)
  | lora_received
  | lora_receive_packet (size : Int)
  | lora_on_receive (cb : Handler)
  | lora_wait_for_packet (timeout : Int)
  | saveThread
  | restoreThread
  | gilEnsure
  | gilRelease
  | callObject (f : PyObj) (args : List PyObj)
  | memcpy (count : Nat)
  deriving DecidableEq, Repr

/-- What the world outside the file answers during one call: the driver's return
values, whether `malloc` succeeds, the memory found at `buf + i` once
`lora_receive_packet` has returned (indices below 255 are the scratch buffer, higher
ones lie behind it), and what the registered callable returns (`none` is `NULL`). -/
structure Env where
  initialized : Bool
  received : Bool
  initResult : Int
  rssi : Int
  snr : Nat
  mallocOk : Bool
  rxLen : Int
  rxMem : Nat → Byte
  callResult : Option PyObj

/-- State the wrappers act on: the static `callback_function`, the reference counts
of the identified objects, the objects deallocated so far, whether the running thread
holds the global interpreter lock, and the trace. -/
structure State where
  callback_function : Option PyObj
  rc : Nat → Int
  freed : List Nat
  gil : Bool
  trace : List Event

/-- Append one event to the trace. -/
def log (ev : Event) (s : State) : State :=
  { s with trace := s.trace ++ [ev] }

/-- Events appended to the trace between `s` and `t`. -/
def newEvents (s t : State) : List Event :=
  t.trace.drop s.trace.length

/-- Driver entry points among the events. -/
def Event.isDriverCall : Event → Bool
  | .saveThread => false
  | .restoreThread => false
  | .gilEnsure => false
  | .gilRelease => false
  | .callObject _ _ => false
  | .memcpy _ => false
  | _ => true

/-- The two driver entry points that may block. -/
def Event.isBlocking : Event → Bool
  | .lora_send_packet _ _ _ => true
  | .lora_wait_for_packet _ => true
  | _ => false

/-! ## C integers -/

def INT_MIN : Int := -2147483648
def INT_MAX : Int := 2147483647
def LONG_MIN : Int := -9223372036854775808
def LONG_MAX : Int := 9223372036854775807
def PY_SSIZE_T_MAX : Int := 9223372036854775807

/-- Conversion of a wider integer to `int` (`int size = PyByteArray_Size(msg)`). -/
def toCInt (n : Int) : Int :=
  (n + 2147483648) % 4294967296 - 2147483648

/-! ## Python C API -/

/-- The id under which an object's reference count is kept. -/
def PyObj.ident : PyObj → Option Nat
  | .bytearray id _ => some id
  | .function id => some id
  | _ => Option.none

def Py_INCREF (o : PyObj) (s : State) : State :=
  match o.ident with
  | some i => { s with rc := fun j => if j = i then s.rc j + 1 else s.rc j }
  | Option.none => s

/-- Drop one reference; an object whose count reaches zero is deallocated. -/
def Py_DECREF (o : PyObj) (s : State) : State :=
  match o.ident with
  | some i =>
    { s with rc := fun j => if j = i then s.rc j - 1 else s.rc j,
             freed := if s.rc i - 1 = 0 then s.freed ++ [i] else s.freed }
  | Option.none => s

def Py_XINCREF (o : Option PyObj) (s : State) : State :=
  match o with
  | some x => Py_INCREF x s
  | Option.none => s

def Py_XDECREF (o : Option PyObj) (s : State) : State :=
  match o with
  | some x => Py_DECREF x s
  | Option.none => s

def PyCallable_Check : PyObj → Bool
  | .function _ => true
  | _ => false

/-- Format unit `i`: a Python integer that fits a C `int`. -/
def conv_i : PyObj → Except PyErr Int
  | .int v => if INT_MIN ≤ v ∧ v ≤ INT_MAX then .ok v else .error .OverflowError
  | _ => .error .TypeError

/-- Format unit `l`: a Python integer that fits a C `long`. -/
def conv_l : PyObj → Except PyErr Int
  | .int v => if LONG_MIN ≤ v ∧ v ≤ LONG_MAX then .ok v else .error .OverflowError
  | _ => .error .TypeError

/-- Format unit `s`: a `str` without an embedded null character. -/
def conv_s : PyObj → Except PyErr String
  | .str s => if s.toList.contains (Char.ofNat 0) then .error .ValueError else .ok s
  | _ => .error .TypeError

/-- The call `PyArg_ParseTuple(args, "i", &x)`. -/
def parse_i : List PyObj → Except PyErr Int
  | [a] => conv_i a
  | _ => .error .TypeError

/-- The call `PyArg_ParseTuple(args, "l", &x)`. -/
def parse_l : List PyObj → Except PyErr Int
  | [a] => conv_l a
  | _ => .error .TypeError

/-- The call `PyArg_ParseTuple(args, "O", &x)`. -/
def parse_O : List PyObj → Except PyErr PyObj
  | [a] => .ok a
  | _ => .error .TypeError

/-- The call `PyArg_ParseTuple(args, "|i", &x)` with `x` preset to `dflt`. -/
def parse_opt_i (dflt : Int) : List PyObj → Except PyErr Int
  | [] => .ok dflt
  | [a] => conv_i a
  | _ => .error .TypeError

/-- Keyword names of `set_pins` (`static char *kwlist[]`). -/
def kwlist : List String := ["spi_device", "cs_pin", "rst_pin", "irq_pin"]

/-- The four output variables of `set_pins`. -/
structure Pins where
  spidev : Option String
  cs : Int
  rst : Int
  irq : Int
  deriving DecidableEq, Repr

/-- The object supplied for parameter `i` of `kwlist`: the positional argument at
that index if there is one, else the keyword argument of that name. -/
def supplied (args : List PyObj) (kw : List (String × PyObj)) (i : Nat) : Option PyObj :=
  match args[i]? with
  | some a => some a
  | Option.none =>
    match kwlist[i]? with
    | some k => kw.lookup k
    | Option.none => Option.none

/-- The call `PyArg_ParseTupleAndKeywords(args, keywords, "|siii", kwlist, ...)` with
the outputs preset to `NULL, -1, -1, -1`.  `kw` is the keyword dictionary.  At most
four arguments in all; each supplied argument is converted in order; a keyword that
is not in `kwlist` or names a parameter already given by position is rejected. -/
def parse_siii (args : List PyObj) (kw : List (String × PyObj)) : Except PyErr Pins :=
  if args.length + kw.length > 4 then .error .TypeError
  else do
    let spidev ← match supplied args kw 0 with
      | some o => (conv_s o).map some
      | Option.none => pure Option.none
    let cs ← match supplied args kw 1 with
      | some o => conv_i o
      | Option.none => pure (-1)
    let rst ← match supplied args kw 2 with
      | some o => conv_i o
      | Option.none => pure (-1)
    let irq ← match supplied args kw 3 with
      | some o => conv_i o
      | Option.none => pure (-1)
    if kw.all (fun p => (kwlist.drop args.length).contains p.1) then
      pure { spidev := spidev, cs := cs, rst := rst, irq := irq }
    else .error .TypeError

/-- The call `PyByteArray_FromObject(o)`, that is `bytearray(o)`: the bytes of the
new bytearray.  An integer gives that many zero bytes, an object with the buffer
interface a copy of its bytes, a sequence of integers in `range(256)` those bytes. -/
def PyByteArray_FromObject : PyObj → Except PyErr (List Byte)
  | .none => .error .TypeError
  | .int v =>
    if v < 0 then .error .ValueError
    else if v > PY_SSIZE_T_MAX then .error .OverflowError
    else .ok (List.replicate v.toNat 0)
  | .float _ => .error .TypeError
  | .str _ => .error .TypeError
  | .bytes bs => .ok bs
  | .bytearray _ bs => .ok bs
  | .intSeq items =>
    if items.all (fun x => decide (0 ≤ x ∧ x < 256)) then
      .ok (items.map (fun x => Fin.ofNat x.toNat))
    else .error .ValueError
  | .function _ => .error .TypeError

/-- The call `PyByteArray_FromStringAndSize(buf, len)`: a negative size is a
`SystemError`; otherwise `len` bytes are copied from `buf[0 .. len)`. -/
def PyByteArray_FromStringAndSize (mem : Nat → Byte) (len : Int) (s : State) :
    PyResult × State :=
  if len < 0 then (.null .SystemError, s)
  else if len = 0 then (.ok (.bytearray []), s)
  else (.ok (.bytearray ((List.range len.toNat).map mem)), log (.memcpy len.toNat) s)

/-- The macro `Py_BEGIN_ALLOW_THREADS`: release the global interpreter lock. -/
def Py_BEGIN_ALLOW_THREADS (s : State) : State :=
  { log .saveThread s with gil := false }

/-- The macro `Py_END_ALLOW_THREADS`: take the global interpreter lock again. -/
def Py_END_ALLOW_THREADS (s : State) : State :=
  { log .restoreThread s with gil := true }

/-- The call `PyGILState_Ensure()`: returns whether the lock was already held. -/
def PyGILState_Ensure (s : State) : Bool × State :=
  (s.gil, { log .gilEnsure s with gil := true })

/-- The call `PyGILState_Release(gstate)`: back to the lock state before. -/
def PyGILState_Release (gstate : Bool) (s : State) : State :=
  { log .gilRelease s with gil := gstate }

/-! ## The wrappers -/

/-- Helper to ensure the library is initialized: `none` is the return value 1, an
error is the return value 0 with that exception set. -/
def check (env : Env) (s : State) : Option PyErr × State :=
  if env.initialized then (Option.none, log .lora_initialized s)
  else (some (.RuntimeError "Lora not initialized"), log .lora_initialized s)

def reset (env : Env) (_args : List PyObj) (s : State) : PyResult × State :=
  match check env s with
  | (some e, s) => (.null e, s)
  | (Option.none, s) => (.ok .pyNone, log .lora_reset s)

def explicit_header_mode (env : Env) (_args : List PyObj) (s : State) : PyResult × State :=
  match check env s with
  | (some e, s) => (.null e, s)
  | (Option.none, s) => (.ok .pyNone, log .lora_explicit_header_mode s)

def implicit_header_mode (env : Env) (args : List PyObj) (s : State) : PyResult × State :=
  match check env s with
  | (some e, s) => (.null e, s)
  | (Option.none, s) =>
    match parse_i args with
    | .error e => (.null e, s)
    | .ok size => (.ok .pyNone, log (.lora_implicit_header_mode size) s)

def idle (env : Env) (_args : List PyObj) (s : State) : PyResult × State :=
  match check env s with
  | (some e, s) => (.null e, s)
  | (Option.none, s) => (.ok .pyNone, log .lora_idle s)

def _sleep (env : Env) (_args : List PyObj) (s : State) : PyResult × State :=
  match check env s with
  | (some e, s) => (.null e, s)
  | (Option.none, s) => (.ok .pyNone, log .lora_sleep s)

def receive (env : Env) (_args : List PyObj) (s : State) : PyResult × State :=
  match check env s with
  | (some e, s) => (.null e, s)
  | (Option.none, s) => (.ok .pyNone, log .lora_receive s)

def set_tx_power (env : Env) (args : List PyObj) (s : State) : PyResult × State :=
  match check env s with
  | (some e, s) => (.null e, s)
  | (Option.none, s) =>
    match parse_i args with
    | .error e => (.null e, s)
    | .ok power => (.ok .pyNone, log (.lora_set_tx_power power) s)

def set_frequency (env : Env) (args : List PyObj) (s : State) : PyResult × State :=
  match check env s with
  | (some e, s) => (.null e, s)
  | (Option.none, s) =>
    match parse_l args with
    | .error e => (.null e, s)
    | .ok freq => (.ok .pyNone, log (.lora_set_frequency freq) s)

def set_spreading_factor (env : Env) (args : List PyObj) (s : State) : PyResult × State :=
  match check env s with
  | (some e, s) => (.null e, s)
  | (Option.none, s) =>
    match parse_i args with
    | .error e => (.null e, s)
    | .ok sf => (.ok .pyNone, log (.lora_set_spreading_factor sf) s)

def set_bandwidth (env : Env) (args : List PyObj) (s : State) : PyResult × State :=
  match check env s with
  | (some e, s) => (.null e, s)
  | (Option.none, s) =>
    match parse_l args with
    | .error e => (.null e, s)
    | .ok bw => (.ok .pyNone, log (.lora_set_bandwidth bw) s)

def set_coding_rate (env : Env) (args : List PyObj) (s : State) : PyResult × State :=
  match check env s with
  | (some e, s) => (.null e, s)
  | (Option.none, s) =>
    match parse_i args with
    | .error e => (.null e, s)
    | .ok cr => (.ok .pyNone, log (.lora_set_coding_rate cr) s)

def set_preamble_length (env : Env) (args : List PyObj) (s : State) : PyResult × State :=
  match check env s with
  | (some e, s) => (.null e, s)
  | (Option.none, s) =>
    match parse_l args with
    | .error e => (.null e, s)
    | .ok pre => (.ok .pyNone, log (.lora_set_preamble_length pre) s)

def set_sync_word (env : Env) (args : List PyObj) (s : State) : PyResult × State :=
  match check env s with
  | (some e, s) => (.null e, s)
  | (Option.none, s) =>
    match parse_i args with
    | .error e => (.null e, s)
    | .ok w => (.ok .pyNone, log (.lora_set_sync_word w) s)

def enable_crc (env : Env) (_args : List PyObj) (s : State) : PyResult × State :=
  match check env s with
  | (some e, s) => (.null e, s)
  | (Option.none, s) => (.ok .pyNone, log .lora_enable_crc s)

def disable_crc (env : Env) (_args : List PyObj) (s : State) : PyResult × State :=
  match check env s with
  | (some e, s) => (.null e, s)
  | (Option.none, s) => (.ok .pyNone, log .lora_disable_crc s)

def set_pins (env : Env) (args : List PyObj) (keywords : List (String × PyObj))
    (s : State) : PyResult × State :=
  let s := log .lora_initialized s
  if env.initialized then
    (.null (.RuntimeError "set_pins() has no effect after initialization"), s)
  else
    match parse_siii args keywords with
    | .error e => (.null e, s)
    | .ok p => (.ok .pyNone, log (.lora_set_pins p.spidev p.cs p.rst p.irq) s)

def init (env : Env) (_args : List PyObj) (s : State) : PyResult × State :=
  (.ok (.long env.initResult), log .lora_init s)

def packet_rssi (env : Env) (_args : List PyObj) (s : State) : PyResult × State :=
  match check env s with
  | (some e, s) => (.null e, s)
  | (Option.none, s) => (.ok (.long env.rssi), log .lora_packet_rssi s)

def packet_snr (env : Env) (_args : List PyObj) (s : State) : PyResult × State :=
  match check env s with
  | (some e, s) => (.null e, s)
  | (Option.none, s) => (.ok (.float env.snr), log .lora_packet_snr s)

def _close (_env : Env) (_args : List PyObj) (s : State) : PyResult × State :=
  (.ok .pyNone, log .lora_close s)

/-- The wrapper `send_packet`.  `PyTuple_Size(args) != 1` is the test that `args` is
not a one-element tuple.  The new bytearray of the second branch lives only inside
the call: it is created with one reference and the final `Py_XDECREF(msg)` frees it. -/
def send_packet (env : Env) (args : List PyObj) (s : State) : PyResult × State :=
  match check env s with
  | (some e, s) => (.null e, s)
  | (Option.none, s) =>
    match args with
    | [arg] =>
      let s := Py_XINCREF (some arg) s
      match arg with
      | .bytearray id bs =>
        let s := Py_BEGIN_ALLOW_THREADS s
        let s := log (.lora_send_packet (.argument id) bs (toCInt bs.length)) s
        let s := Py_END_ALLOW_THREADS s
        (.ok .pyNone, Py_XDECREF (some arg) s)
      | _ =>
        match PyByteArray_FromObject arg with
        | .error e => (.null e, Py_XDECREF (some arg) s)
        | .ok bs =>
          let s := Py_XDECREF (some arg) s
          let s := Py_BEGIN_ALLOW_THREADS s
          let s := log (.lora_send_packet .fresh bs (toCInt bs.length)) s
          let s := Py_END_ALLOW_THREADS s
          (.ok .pyNone, s)
    | _ => (.null (.RuntimeError "Packet data not provided"), s)

def packet_available (env : Env) (_args : List PyObj) (s : State) : PyResult × State :=
  if env.received then (.ok .pyTrue, log .lora_received s)
  else (.ok .pyFalse, log .lora_received s)

def receive_packet (env : Env) (_args : List PyObj) (s : State) : PyResult × State :=
  let s := log .lora_received s
  if !env.received then (.ok .pyNone, s)
  else if !env.mallocOk then (.null .MemoryError, s)
  else
    let s := log (.lora_receive_packet 255) s
    PyByteArray_FromStringAndSize env.rxMem env.rxLen s

/-- The trampoline `__packet_received`.  The callable returns a new reference (or
`NULL`), which `Py_XDECREF(res)` drops at once. -/
def __packet_received (env : Env) (s : State) : State :=
  match s.callback_function with
  | Option.none => s
  | some cb =>
    match PyGILState_Ensure s with
    | (gstate, s) =>
      if !PyCallable_Check cb then PyGILState_Release gstate s
      else
        let s := log (.callObject cb []) s
        let s := Py_XINCREF env.callResult s
        let s := Py_XDECREF env.callResult s
        PyGILState_Release gstate s

def on_receive (env : Env) (args : List PyObj) (s : State) : PyResult × State :=
  match check env s with
  | (some e, s) => (.null e, s)
  | (Option.none, s) =>
    match parse_O args with
    | .error e => (.null e, s)
    | .ok funct =>
      if funct = PyObj.none then
        let s := Py_XDECREF s.callback_function s
        let s := { s with callback_function := Option.none }
        (.ok .pyNone, log (.lora_on_receive .NULL) s)
      else if !PyCallable_Check funct then
        (.null (.RuntimeError "Parameter for on_receive() must be callable"), s)
      else
        let s := Py_XINCREF (some funct) s
        let s := Py_XDECREF s.callback_function s
        let s := { s with callback_function := some funct }
        (.ok .pyNone, log (.lora_on_receive .packet_received) s)

def wait_for_packet (env : Env) (args : List PyObj) (s : State) : PyResult × State :=
  match check env s with
  | (some e, s) => (.null e, s)
  | (Option.none, s) =>
    match parse_opt_i (-1) args with
    | .error e => (.null e, s)
    | .ok timeout =>
      let s := Py_BEGIN_ALLOW_THREADS s
      let s := log (.lora_wait_for_packet timeout) s
      let s := Py_END_ALLOW_THREADS s
      (.ok .pyNone, s)

/-! ## Module method table -/

inductive Flags where
  | METH_NOARGS
  | METH_VARARGS
  | METH_VARARGS_KEYWORDS
  deriving DecidableEq, Repr

/-- The C functions of the method table. -/
inductive Op where
  | reset | explicit_header_mode | implicit_header_mode | idle | sleep | receive
  | set_tx_power | set_frequency | set_spreading_factor | set_bandwidth
  | set_coding_rate | set_preamble_length | set_sync_word | enable_crc | disable_crc
  | set_pins | init | packet_rssi | packet_snr | close | send_packet
  | packet_available | receive_packet | on_receive | wait_for_packet
  deriving DecidableEq, Repr

/-- The table `PyLora_methods`: exported name, C function, calling convention. -/
def PyLora_methods : List (String × Op × Flags) :=
  [ ("reset", .reset, .METH_NOARGS),
    ("explicit_header_mode", .explicit_header_mode, .METH_NOARGS),
    ("implicit_header_mode", .implicit_header_mode, .METH_VARARGS),
    ("idle", .idle, .METH_NOARGS),
    ("sleep", .sleep, .METH_NOARGS),
    ("receive", .receive, .METH_NOARGS),
    ("set_tx_power", .set_tx_power, .METH_VARARGS),
    ("set_frequency", .set_frequency, .METH_VARARGS),
    ("set_spreading_factor", .set_spreading_factor, .METH_VARARGS),
    ("set_bandwidth", .set_bandwidth, .METH_VARARGS),
    ("set_coding_rate", .set_coding_rate, .METH_VARARGS),
    ("set_preamble_length", .set_preamble_length, .METH_VARARGS),
    ("set_sync_word", .set_sync_word, .METH_VARARGS),
    ("enable_crc", .enable_crc, .METH_NOARGS),
    ("disable_crc", .disable_crc, .METH_NOARGS),
    ("set_pins", .set_pins, .METH_VARARGS_KEYWORDS),
    ("init", .init, .METH_NOARGS),
    ("packet_rssi", .packet_rssi, .METH_NOARGS),
    ("packet_snr", .packet_snr, .METH_NOARGS),
    ("close", .close, .METH_NOARGS),
    ("send_packet", .send_packet, .METH_VARARGS),
    ("packet_available", .packet_available, .METH_NOARGS),
    ("receive_packet", .receive_packet, .METH_NOARGS),
    ("on_receive", .on_receive, .METH_VARARGS),
    ("wait_for_packet", .wait_for_packet, .METH_VARARGS) ]

/-- Run the C function of a table entry on an argument tuple and keyword
dictionary; only `set_pins` has a keyword parameter. -/
def call (op : Op) (env : Env) (args : List PyObj) (kw : List (String × PyObj))
    (s : State) : PyResult × State :=
  match op with
  | .reset => reset env args s
  | .explicit_header_mode => explicit_header_mode env args s
  | .implicit_header_mode => implicit_header_mode env args s
  | .idle => idle env args s
  | .sleep => _sleep env args s
  | .receive => receive env args s
  | .set_tx_power => set_tx_power env args s
  | .set_frequency => set_frequency env args s
  | .set_spreading_factor => set_spreading_factor env args s
  | .set_bandwidth => set_bandwidth env args s
  | .set_coding_rate => set_coding_rate env args s
  | .set_preamble_length => set_preamble_length env args s
  | .set_sync_word => set_sync_word env args s
  | .enable_crc => enable_crc env args s
  | .disable_crc => disable_crc env args s
  | .set_pins => set_pins env args kw s
  | .init => init env args s
  | .packet_rssi => packet_rssi env args s
  | .packet_snr => packet_snr env args s
  | .close => _close env args s
  | .send_packet => send_packet env args s
  | .packet_available => packet_available env args s
  | .receive_packet => receive_packet env args s
  | .on_receive => on_receive env args s
  | .wait_for_packet => wait_for_packet env args s

/-! ## Concrete inputs used in the examples -/

/-- A driver that is not initialised and has nothing pending. -/
def envDown : Env :=
  { initialized := false, received := false, initResult := 1, rssi := 0, snr := 0,
    mallocOk := true, rxLen := 0, rxMem := fun _ => 0, callResult := Option.none }

/-- An initialised driver with a three-byte packet pending. -/
def envUp : Env :=
  { initialized := true, received := true, initResult := 1, rssi := -40, snr := 9,
    mallocOk := true, rxLen := 3, rxMem := fun i => Fin.ofNat (i + 65),
    callResult := some PyObj.none }

/-- The state at module load: empty callback slot, lock held by the caller. -/
def s0 : State :=
  { callback_function := Option.none, rc := fun _ => 1, freed := [], gil := true,
    trace := [] }

/-- A driver that reports one byte more than the scratch buffer holds. -/
def envOverlong : Env :=
  { envUp with rxLen := 256 }

/-- The bytes of a returned bytearray. -/
def PyResult.payload : PyResult → Option (List Byte)
  | .ok (.bytearray bs) => some bs
  | _ => Option.none

/-! ## Runs of several calls -/

/-- One run of the trampoline per driver notification, in order. -/
def notifications (envs : List Env) (s : State) : State :=
  envs.foldl (fun st e => __packet_received e st) s

/-- A series of `on_receive` calls, each with its one argument. -/
def registrations (calls : List (Env × PyObj)) (s : State) : State :=
  calls.foldl (fun st c => (on_receive c.1 [c.2] st).2) s

/-- The events of `n` runs of the trampoline that each call `f`. -/
def firings (f : PyObj) : Nat → List Event
  | 0 => []
  | n + 1 => [Event.gilEnsure, Event.callObject f [], Event.gilRelease] ++ firings f n

/-- The number of references the wrapper holds on object `i`: one if `i` is the
object in the callback slot, none otherwise. -/
def owned (s : State) (i : Nat) : Int :=
  match s.callback_function with
  | some o => if o.ident = some i then 1 else 0
  | Option.none => 0

/-- The effect of one event on whether the calling thread holds the lock. -/
def Event.lockAfter (held : Bool) : Event → Bool
  | .saveThread => false
  | .restoreThread => true
  | _ => held

/-- Replay of a trace from a lock state: true when no blocking driver call in it
happens while the calling thread holds the lock. -/
def blockingOnlyUnlocked : Bool → List Event → Bool
  | _, [] => true
  | held, ev :: es => !(ev.isBlocking && held) && blockingOnlyUnlocked (ev.lockAfter held) es

/-! ## Trace lemmas -/

theorem newEvents_append (s t : State) (l : List Event) (h : t.trace = s.trace ++ l) :
    newEvents s t = l := by
  simp [newEvents, h]

@[simp] theorem log_trace (ev : Event) (s : State) : (log ev s).trace = s.trace ++ [ev] := rfl

@[simp] theorem log_callback (ev : Event) (s : State) :
    (log ev s).callback_function = s.callback_function := rfl

@[simp] theorem log_rc (ev : Event) (s : State) : (log ev s).rc = s.rc := rfl

@[simp] theorem log_freed (ev : Event) (s : State) : (log ev s).freed = s.freed := rfl

@[simp] theorem log_gil (ev : Event) (s : State) : (log ev s).gil = s.gil := rfl

theorem check_down (env : Env) (s : State) (h : env.initialized = false) :
    check env s = (some (.RuntimeError "Lora not initialized"), log .lora_initialized s) := by
  simp [check, h]

theorem check_up (env : Env) (s : State) (h : env.initialized = true) :
    check env s = (Option.none, log .lora_initialized s) := by
  simp [check, h]

/-! ## Reference counting lemmas -/

@[simp] theorem Py_XINCREF_trace (o : Option PyObj) (s : State) :
    (Py_XINCREF o s).trace = s.trace := by
  cases o with
  | none => rfl
  | some x => cases hx : x.ident <;> simp [Py_XINCREF, Py_INCREF, hx]

@[simp] theorem Py_XINCREF_gil (o : Option PyObj) (s : State) :
    (Py_XINCREF o s).gil = s.gil := by
  cases o with
  | none => rfl
  | some x => cases hx : x.ident <;> simp [Py_XINCREF, Py_INCREF, hx]

@[simp] theorem Py_XINCREF_callback (o : Option PyObj) (s : State) :
    (Py_XINCREF o s).callback_function = s.callback_function := by
  cases o with
  | none => rfl
  | some x => cases hx : x.ident <;> simp [Py_XINCREF, Py_INCREF, hx]

@[simp] theorem Py_XDECREF_trace (o : Option PyObj) (s : State) :
    (Py_XDECREF o s).trace = s.trace := by
  cases o with
  | none => rfl
  | some x => cases hx : x.ident <;> simp [Py_XDECREF, Py_DECREF, hx]

@[simp] theorem Py_XDECREF_gil (o : Option PyObj) (s : State) :
    (Py_XDECREF o s).gil = s.gil := by
  cases o with
  | none => rfl
  | some x => cases hx : x.ident <;> simp [Py_XDECREF, Py_DECREF, hx]

@[simp] theorem Py_XDECREF_callback (o : Option PyObj) (s : State) :
    (Py_XDECREF o s).callback_function = s.callback_function := by
  cases o with
  | none => rfl
  | some x => cases hx : x.ident <;> simp [Py_XDECREF, Py_DECREF, hx]

theorem Py_XINCREF_rc (o : Option PyObj) (s : State) (j : Nat) :
    (Py_XINCREF o s).rc j =
      s.rc j + (match o with
        | some x => if x.ident = some j then 1 else 0
        | Option.none => 0) := by
  cases o with
  | none => simp [Py_XINCREF]
  | some x =>
    cases hx : x.ident with
    | none => simp [Py_XINCREF, Py_INCREF, hx]
    | some i =>
      by_cases hj : j = i
      · subst hj
        simp [Py_XINCREF, Py_INCREF, hx]
      · have hj2 : ¬ i = j := fun h => hj h.symm
        simp [Py_XINCREF, Py_INCREF, hx, hj, hj2]

theorem Py_XDECREF_rc (o : Option PyObj) (s : State) (j : Nat) :
    (Py_XDECREF o s).rc j =
      s.rc j - (match o with
        | some x => if x.ident = some j then 1 else 0
        | Option.none => 0) := by
  cases o with
  | none => simp [Py_XDECREF]
  | some x =>
    cases hx : x.ident with
    | none => simp [Py_XDECREF, Py_DECREF, hx]
    | some i =>
      by_cases hj : j = i
      · subst hj
        simp [Py_XDECREF, Py_DECREF, hx]
      · have hj2 : ¬ i = j := fun h => hj h.symm
        simp [Py_XDECREF, Py_DECREF, hx, hj, hj2]

/-! ## C1: the initialisation guard -/

/-- C1 (counterexample): `set_pins` is an exported operation other than init, close,
packet_available and receive_packet, yet called with no arguments while the driver
reports that it is not initialised it succeeds and calls `lora_set_pins`. -/
theorem set_pins_before_init_calls_driver :
    ("set_pins", Op.set_pins, Flags.METH_VARARGS_KEYWORDS) ∈ PyLora_methods ∧
    envDown.initialized = false ∧
    (call Op.set_pins envDown [] [] s0).1 = PyResult.ok Ret.pyNone ∧
    (call Op.set_pins envDown [] [] s0).2.trace =
      [Event.lora_initialized, Event.lora_set_pins Option.none (-1) (-1) (-1)] := by
  refine ⟨by simp [PyLora_methods], rfl, rfl, rfl⟩

/-- C1 (amended): every exported operation other than init, close, packet_available,
receive_packet and set_pins, on every argument tuple and keyword dictionary, fails
with RuntimeError "Lora not initialized" when the driver reports that it is not
initialised; the only driver call is the `lora_initialized()` query and nothing else
of the state changes. -/
theorem uninitialised_call_is_rejected (name : String) (op : Op) (flags : Flags)
    (env : Env) (args : List PyObj) (kw : List (String × PyObj)) (s : State)
    (hmem : (name, op, flags) ∈ PyLora_methods)
    (hname : name ∉ ["init", "close", "packet_available", "receive_packet", "set_pins"])
    (hdown : env.initialized = false) :
    call op env args kw s =
      (PyResult.null (PyErr.RuntimeError "Lora not initialized"),
        log Event.lora_initialized s) ∧
    newEvents s (call op env args kw s).2 = [Event.lora_initialized] := by
  have hc := check_down env s hdown
  simp only [PyLora_methods, List.mem_cons, Prod.mk.injEq, List.mem_singleton,
    List.not_mem_nil, or_false] at hmem
  rcases hmem with h | h | h | h | h | h | h | h | h | h | h | h | h | h | h | h | h | h |
    h | h | h | h | h | h | h <;> obtain ⟨rfl, rfl, rfl⟩ := h <;>
    first
    | (exfalso; revert hname; decide)
    | (refine ⟨?_, ?_⟩ <;>
        simp [call, reset, explicit_header_mode, implicit_header_mode, idle, _sleep,
          receive, set_tx_power, set_frequency, set_spreading_factor, set_bandwidth,
          set_coding_rate, set_preamble_length, set_sync_word, enable_crc, disable_crc,
          packet_rssi, packet_snr, send_packet, on_receive, wait_for_packet, hc,
          newEvents])

/-- C1 (amended), at a concrete call: `send_packet` with a malformed argument list
on an uninitialised driver. -/
theorem uninitialised_call_is_rejected_witness :
    call Op.send_packet envDown [] [("x", PyObj.int 1)] s0 =
      (PyResult.null (PyErr.RuntimeError "Lora not initialized"),
        log Event.lora_initialized s0) ∧
    newEvents s0 (call Op.send_packet envDown [] [("x", PyObj.int 1)] s0).2 =
      [Event.lora_initialized] :=
  uninitialised_call_is_rejected "send_packet" Op.send_packet Flags.METH_VARARGS envDown []
    [("x", PyObj.int 1)] s0 (by simp [PyLora_methods]) (by decide) rfl

/-! ## C2: `set_pins` -/

theorem conv_i_iff (o : PyObj) (v : Int) :
    conv_i o = Except.ok v ↔ o = PyObj.int v ∧ INT_MIN ≤ v ∧ v ≤ INT_MAX := by
  cases o <;> simp only [conv_i, reduceCtorEq, false_and]
  case int w =>
    split
    · rename_i hw
      constructor
      · intro h
        cases h
        exact ⟨rfl, hw⟩
      · rintro ⟨h, _⟩
        cases h
        rfl
    · rename_i hw
      constructor
      · intro h
        cases h
      · rintro ⟨h, h2⟩
        cases h
        exact absurd h2 hw

theorem conv_l_iff (o : PyObj) (v : Int) :
    conv_l o = Except.ok v ↔ o = PyObj.int v ∧ LONG_MIN ≤ v ∧ v ≤ LONG_MAX := by
  cases o <;> simp only [conv_l, reduceCtorEq, false_and]
  case int w =>
    split
    · rename_i hw
      constructor
      · intro h
        cases h
        exact ⟨rfl, hw⟩
      · rintro ⟨h, _⟩
        cases h
        rfl
    · rename_i hw
      constructor
      · intro h
        cases h
      · rintro ⟨h, h2⟩
        cases h
        exact absurd h2 hw

theorem conv_s_iff (o : PyObj) (x : String) :
    conv_s o = Except.ok x ↔ o = PyObj.str x ∧ x.toList.contains (Char.ofNat 0) = false := by
  cases o <;> simp only [conv_s, reduceCtorEq, false_and]
  case str w =>
    split
    · rename_i hw
      constructor
      · intro h
        cases h
      · rintro ⟨h, h2⟩
        cases h
        rw [hw] at h2
        cases h2
    · rename_i hw
      constructor
      · intro h
        cases h
        exact ⟨rfl, by simpa using hw⟩
      · rintro ⟨h, _⟩
        cases h
        rfl

theorem conv_s_map_iff (o : PyObj) (w : Option String) :
    (conv_s o).map some = Except.ok w ↔
      ∃ x, o = PyObj.str x ∧ x.toList.contains (Char.ofNat 0) = false ∧ w = some x := by
  cases hc : conv_s o with
  | error e =>
    constructor
    · intro h
      cases h
    · rintro ⟨x, hx, hx2, _⟩
      have := (conv_s_iff o x).2 ⟨hx, hx2⟩
      rw [hc] at this
      cases this
  | ok y =>
    have hy := (conv_s_iff o y).1 hc
    constructor
    · intro h
      cases h
      exact ⟨y, hy.1, hy.2, rfl⟩
    · rintro ⟨x, hx, _, rfl⟩
      rw [hy.1] at hx
      cases hx
      rfl

theorem parse_siii_ok (args : List PyObj) (kw : List (String × PyObj)) (p : Pins)
    (h : parse_siii args kw = Except.ok p) :
    ((supplied args kw 0 = Option.none → p.spidev = Option.none) ∧
      (∀ o, supplied args kw 0 = some o → ∃ x, o = PyObj.str x ∧ p.spidev = some x)) ∧
    ((supplied args kw 1 = Option.none → p.cs = -1) ∧
      (∀ o, supplied args kw 1 = some o → o = PyObj.int p.cs)) ∧
    ((supplied args kw 2 = Option.none → p.rst = -1) ∧
      (∀ o, supplied args kw 2 = some o → o = PyObj.int p.rst)) ∧
    ((supplied args kw 3 = Option.none → p.irq = -1) ∧
      (∀ o, supplied args kw 3 = some o → o = PyObj.int p.irq)) := by
  unfold parse_siii at h
  split at h
  · cases h
  · cases h0 : supplied args kw 0 <;> cases h1 : supplied args kw 1 <;>
      cases h2 : supplied args kw 2 <;> cases h3 : supplied args kw 3 <;>
      simp only [h0, h1, h2, h3, bind, Except.bind, pure, Except.pure] at h <;>
      (repeat' split at h) <;>
      cases h <;> simp_all [conv_i_iff, conv_s_map_iff] <;>
      (obtain ⟨x, hx, _, hw⟩ := ‹∃ x, _ ∧ _ ∧ _›
       exact ⟨x, hx, hw⟩)

/-- C2: while the driver reports that it is initialised, `set_pins` fails with a
RuntimeError on every argument tuple and keyword dictionary and its only driver call
is the `lora_initialized()` query; while it reports that it is not, and the arguments
parse, `lora_set_pins` is called exactly once, each parameter being the supplied
value or, when omitted, NULL for the device path and -1 for a pin. -/
theorem set_pins_spec (env : Env) (args : List PyObj) (kw : List (String × PyObj))
    (s : State) :
    (env.initialized = true →
      set_pins env args kw s =
        (PyResult.null (PyErr.RuntimeError "set_pins() has no effect after initialization"),
          log Event.lora_initialized s) ∧
      newEvents s (set_pins env args kw s).2 = [Event.lora_initialized]) ∧
    (env.initialized = false → ∀ p, parse_siii args kw = Except.ok p →
      set_pins env args kw s =
        (PyResult.ok Ret.pyNone,
          log (Event.lora_set_pins p.spidev p.cs p.rst p.irq) (log Event.lora_initialized s)) ∧
      newEvents s (set_pins env args kw s).2 =
        [Event.lora_initialized, Event.lora_set_pins p.spidev p.cs p.rst p.irq] ∧
      ((supplied args kw 0 = Option.none → p.spidev = Option.none) ∧
        (∀ o, supplied args kw 0 = some o → ∃ x, o = PyObj.str x ∧ p.spidev = some x)) ∧
      ((supplied args kw 1 = Option.none → p.cs = -1) ∧
        (∀ o, supplied args kw 1 = some o → o = PyObj.int p.cs)) ∧
      ((supplied args kw 2 = Option.none → p.rst = -1) ∧
        (∀ o, supplied args kw 2 = some o → o = PyObj.int p.rst)) ∧
      ((supplied args kw 3 = Option.none → p.irq = -1) ∧
        (∀ o, supplied args kw 3 = some o → o = PyObj.int p.irq))) := by
  refine ⟨fun h => ?_, fun h p hp => ?_⟩
  · simp [set_pins, h, newEvents]
  · refine ⟨?_, ?_, parse_siii_ok args kw p hp⟩ <;> simp [set_pins, h, hp, newEvents]

/-- C2 at concrete calls: a malformed argument on an initialised driver, and a
device path with one keyword pin on an uninitialised one. -/
theorem set_pins_spec_witness :
    (set_pins envUp [PyObj.int 5] [] s0 =
        (PyResult.null (PyErr.RuntimeError "set_pins() has no effect after initialization"),
          log Event.lora_initialized s0) ∧
      newEvents s0 (set_pins envUp [PyObj.int 5] [] s0).2 = [Event.lora_initialized]) ∧
    newEvents s0 (set_pins envDown [PyObj.str "/dev/spidev0.1"] [("rst_pin", PyObj.int 17)] s0).2 =
      [Event.lora_initialized, Event.lora_set_pins (some "/dev/spidev0.1") (-1) 17 (-1)] :=
  ⟨(set_pins_spec envUp [PyObj.int 5] [] s0).1 rfl,
    ((set_pins_spec envDown [PyObj.str "/dev/spidev0.1"] [("rst_pin", PyObj.int 17)] s0).2 rfl
      { spidev := some "/dev/spidev0.1", cs := -1, rst := 17, irq := -1 } rfl).2.1⟩

/-! ## C3, C4: `receive_packet` -/

theorem range_map_getElem? (f : Nat → Byte) (n i : Nat) (h : i < n) :
    ((List.range n).map f)[i]? = some (f i) := by
  simp [List.getElem?_map, List.getElem?_range h]

/-- C3: when `lora_received()` is false, `receive_packet` returns None and its only
driver call is the `lora_received()` query; when it is true, the scratch buffer was
allocated and the driver reports a length n with 0 <= n <= 255, the result is a
bytearray of exactly n bytes, byte i being byte i of what the driver left in the
scratch buffer. -/
theorem receive_packet_spec (env : Env) (args : List PyObj) (s : State) :
    (env.received = false →
      receive_packet env args s = (PyResult.ok Ret.pyNone, log Event.lora_received s) ∧
      newEvents s (receive_packet env args s).2 = [Event.lora_received]) ∧
    (env.received = true → env.mallocOk = true → ∀ n : Nat, env.rxLen = n → n ≤ 255 →
      ∃ bs, (receive_packet env args s).1 = PyResult.ok (Ret.bytearray bs) ∧
        bs.length = n ∧ (∀ i, i < n → bs[i]? = some (env.rxMem i)) ∧
        (newEvents s (receive_packet env args s).2).filter Event.isDriverCall =
          [Event.lora_received, Event.lora_receive_packet 255]) := by
  refine ⟨fun h => ?_, fun h hm n hn _ => ?_⟩
  · simp [receive_packet, h, newEvents]
  · rcases Nat.eq_zero_or_pos n with h0 | hpos
    · subst h0
      refine ⟨[], ?_, rfl, ?_, ?_⟩
      · simp [receive_packet, h, hm, hn, PyByteArray_FromStringAndSize]
      · intro i hi
        omega
      · simp [receive_packet, h, hm, hn, PyByteArray_FromStringAndSize, newEvents,
          Event.isDriverCall]
    · have hne : ¬ ((n : Int) = 0) := by omega
      have hnn : ¬ ((n : Int) < 0) := by omega
      refine ⟨(List.range n).map env.rxMem, ?_, by simp, ?_, ?_⟩
      · simp [receive_packet, h, hm, hn, PyByteArray_FromStringAndSize, hne, hnn]
      · intro i hi
        exact range_map_getElem? env.rxMem n i hi
      · simp [receive_packet, h, hm, hn, PyByteArray_FromStringAndSize, hne, hnn, newEvents,
          Event.isDriverCall]

/-- C3 at concrete calls: nothing pending, and a pending three-byte packet. -/
theorem receive_packet_spec_witness :
    (receive_packet envDown [] s0 = (PyResult.ok Ret.pyNone, log Event.lora_received s0) ∧
      newEvents s0 (receive_packet envDown [] s0).2 = [Event.lora_received]) ∧
    (∃ bs, (receive_packet envUp [] s0).1 = PyResult.ok (Ret.bytearray bs) ∧
        bs.length = 3 ∧ (∀ i, i < 3 → bs[i]? = some (envUp.rxMem i)) ∧
        (newEvents s0 (receive_packet envUp [] s0).2).filter Event.isDriverCall =
          [Event.lora_received, Event.lora_receive_packet 255]) :=
  ⟨(receive_packet_spec envDown [] s0).1 rfl,
    (receive_packet_spec envUp [] s0).2 rfl rfl 3 rfl (by decide)⟩

/-- C4 (counterexample): when the driver reports the length 256, `receive_packet`
does not truncate: 256 bytes are copied out of the 255-byte scratch buffer, so the
byte at index 255 is read, and the returned bytearray has 256 bytes. -/
theorem receive_packet_overlong_not_truncated :
    envOverlong.rxLen = 256 ∧
    (receive_packet envOverlong [] s0).2.trace =
      [Event.lora_received, Event.lora_receive_packet 255, Event.memcpy 256] ∧
    (receive_packet envOverlong [] s0).1.payload.map List.length = some 256 := by
  refine ⟨rfl, ?_, ?_⟩
  · simp [receive_packet, envOverlong, envUp, PyByteArray_FromStringAndSize, s0]
  · simp [receive_packet, envOverlong, envUp, PyByteArray_FromStringAndSize, s0,
      PyResult.payload]

/-- C4 (amended): `receive_packet` hands the capacity 255 to the driver; for every
length the driver reports that does not exceed it, the returned bytearray has at
most 255 bytes and only bytes `buf[0 .. n)` with n <= 255 are read, and for a
negative length nothing is read and the call fails with SystemError. -/
theorem receive_packet_within_capacity (env : Env) (args : List PyObj) (s : State)
    (hlen : env.rxLen ≤ 255) :
    (∀ bs, (receive_packet env args s).1 = PyResult.ok (Ret.bytearray bs) → bs.length ≤ 255) ∧
    (∀ c, Event.memcpy c ∈ newEvents s (receive_packet env args s).2 → c ≤ 255) ∧
    (∀ c, Event.lora_receive_packet c ∈ newEvents s (receive_packet env args s).2 → c = 255) ∧
    (env.received = true → env.mallocOk = true → env.rxLen < 0 →
      (receive_packet env args s).1 = PyResult.null PyErr.SystemError ∧
      newEvents s (receive_packet env args s).2 =
        [Event.lora_received, Event.lora_receive_packet 255]) := by
  have hnat : env.rxLen.toNat ≤ 255 := by omega
  refine ⟨?_, ?_, ?_, ?_⟩
  · intro bs
    unfold receive_packet PyByteArray_FromStringAndSize
    cases env.received <;> cases env.mallocOk <;> simp
    split
    · simp
    · split
      · simp
        rintro rfl
        simp
      · simp
        rintro rfl
        simpa using hnat
  · intro c
    unfold receive_packet PyByteArray_FromStringAndSize
    cases env.received <;> cases env.mallocOk <;> simp [newEvents]
    split
    · simp
    · split
      · simp
      · simp
        rintro rfl
        exact hnat
  · intro c
    unfold receive_packet PyByteArray_FromStringAndSize
    cases env.received <;> cases env.mallocOk <;> simp [newEvents]
    split
    · simp
    · split
      · simp
      · simp
  · intro h hm hneg
    simp [receive_packet, h, hm, hneg, PyByteArray_FromStringAndSize, newEvents]

/-- C4 (amended) at a concrete call: the three-byte packet. -/
theorem receive_packet_within_capacity_witness :
    (∀ bs, (receive_packet envUp [] s0).1 = PyResult.ok (Ret.bytearray bs) → bs.length ≤ 255) ∧
    (∀ c, Event.memcpy c ∈ newEvents s0 (receive_packet envUp [] s0).2 → c ≤ 255) :=
  ⟨(receive_packet_within_capacity envUp [] s0 (by decide)).1,
    (receive_packet_within_capacity envUp [] s0 (by decide)).2.1⟩

/-! ## C5: `send_packet` -/

theorem toCInt_of_fits (n : Int) (h0 : 0 ≤ n) (h1 : n ≤ 2147483647) : toCInt n = n := by
  unfold toCInt
  omega

theorem toCInt_two_pow_31 : toCInt 2147483648 = -2147483648 := by
  decide

theorem byteValues_all (payload : List Byte) :
    (payload.map (fun b => (b.val : Int))).all (fun x => decide (0 ≤ x ∧ x < 256)) = true := by
  simp only [List.all_eq_true, List.mem_map, decide_eq_true_eq]
  rintro x ⟨b, _, rfl⟩
  have := b.isLt
  omega

theorem byteValues_back (payload : List Byte) :
    (payload.map (fun b => (b.val : Int))).map (fun x => (Fin.ofNat x.toNat : Byte)) =
      payload := by
  induction payload with
  | nil => rfl
  | cons b bs ih =>
    simp only [List.map_cons, ih, List.cons.injEq, and_true]
    apply Fin.ext
    simp [Fin.ofNat, Nat.mod_eq_of_lt b.isLt]

theorem send_packet_bytearray (env : Env) (s : State) (id : Nat) (bs : List Byte)
    (hup : env.initialized = true) :
    (send_packet env [PyObj.bytearray id bs] s).1 = PyResult.ok Ret.pyNone ∧
    (send_packet env [PyObj.bytearray id bs] s).2.trace =
      s.trace ++ [Event.lora_initialized, Event.saveThread,
        Event.lora_send_packet (MsgOwner.argument id) bs (toCInt bs.length),
        Event.restoreThread] := by
  simp [send_packet, check_up env s hup, Py_XINCREF, Py_INCREF, Py_XDECREF, Py_DECREF,
    PyObj.ident, Py_BEGIN_ALLOW_THREADS, Py_END_ALLOW_THREADS]

theorem send_packet_other (env : Env) (s : State) (arg : PyObj)
    (hup : env.initialized = true) (hna : ∀ id b, arg ≠ PyObj.bytearray id b) :
    send_packet env [arg] s =
      match PyByteArray_FromObject arg with
      | Except.error err =>
        (PyResult.null err,
          Py_XDECREF (some arg) (Py_XINCREF (some arg) (log Event.lora_initialized s)))
      | Except.ok bs =>
        (PyResult.ok Ret.pyNone,
          Py_END_ALLOW_THREADS
            (log (Event.lora_send_packet MsgOwner.fresh bs (toCInt bs.length))
              (Py_BEGIN_ALLOW_THREADS
                (Py_XDECREF (some arg)
                  (Py_XINCREF (some arg) (log Event.lora_initialized s)))))) := by
  cases arg with
  | bytearray id b => exact absurd rfl (hna id b)
  | _ => simp only [send_packet, check_up env s hup]

/-- C5 (counterexample): a bytearray of N = 2147483648 bytes given to `send_packet`
on an initialised driver reaches `lora_send_packet` with the size -2147483648, not
N: the length is narrowed to a C `int`. -/
theorem send_packet_size_wraps :
    envUp.initialized = true ∧
    (List.replicate 2147483648 (0 : Byte)).length = 2147483648 ∧
    (send_packet envUp [PyObj.bytearray 7 (List.replicate 2147483648 (0 : Byte))] s0).2.trace =
      [Event.lora_initialized, Event.saveThread,
        Event.lora_send_packet (MsgOwner.argument 7) (List.replicate 2147483648 (0 : Byte))
          (-2147483648),
        Event.restoreThread] := by
  have hlen : (List.replicate 2147483648 (0 : Byte)).length = 2147483648 :=
    List.length_replicate _ _
  refine ⟨rfl, hlen, ?_⟩
  generalize List.replicate 2147483648 (0 : Byte) = bs at hlen ⊢
  rw [(send_packet_bytearray envUp s0 7 bs rfl).2, hlen]
  have h := toCInt_two_pow_31
  simp only [Nat.cast_ofNat] at h ⊢
  rw [h]
  rfl

/-- C5 (amended): on an initialised driver, for every payload of N <= 2147483647
(INT_MAX) byte values given as bytes, as a bytearray or as a sequence of integers
in 0..255, `lora_send_packet` is called exactly once, between the release and the
reacquisition of the lock, with size N and a buffer holding the payload in order;
for a bytearray the buffer is the argument's own and its reference count is left as
it was, for the other two it belongs to a new bytearray. -/
theorem send_packet_forwards_payload (env : Env) (s : State) (payload : List Byte)
    (id : Nat) (hup : env.initialized = true) (hN : payload.length ≤ 2147483647) :
    ((send_packet env [PyObj.bytes payload] s).1 = PyResult.ok Ret.pyNone ∧
      newEvents s (send_packet env [PyObj.bytes payload] s).2 =
        [Event.lora_initialized, Event.saveThread,
          Event.lora_send_packet MsgOwner.fresh payload payload.length,
          Event.restoreThread]) ∧
    ((send_packet env [PyObj.bytearray id payload] s).1 = PyResult.ok Ret.pyNone ∧
      newEvents s (send_packet env [PyObj.bytearray id payload] s).2 =
        [Event.lora_initialized, Event.saveThread,
          Event.lora_send_packet (MsgOwner.argument id) payload payload.length,
          Event.restoreThread] ∧
      (send_packet env [PyObj.bytearray id payload] s).2.rc = s.rc) ∧
    ((send_packet env [PyObj.intSeq (payload.map (fun b => (b.val : Int)))] s).1 =
        PyResult.ok Ret.pyNone ∧
      newEvents s (send_packet env [PyObj.intSeq (payload.map (fun b => (b.val : Int)))] s).2 =
        [Event.lora_initialized, Event.saveThread,
          Event.lora_send_packet MsgOwner.fresh payload payload.length,
          Event.restoreThread]) := by
  have hsz : toCInt (payload.length : Int) = payload.length :=
    toCInt_of_fits _ (by omega) (by omega)
  refine ⟨?_, ?_, ?_⟩
  · have hconv : PyByteArray_FromObject (PyObj.bytes payload) = Except.ok payload := rfl
    rw [send_packet_other env s _ hup (by intro _ _ h; cases h), hconv]
    refine ⟨rfl, newEvents_append _ _ _ ?_⟩
    simp [Py_END_ALLOW_THREADS, Py_BEGIN_ALLOW_THREADS, hsz]
  · have h := send_packet_bytearray env s id payload hup
    rw [hsz] at h
    refine ⟨h.1, newEvents_append _ _ _ h.2, ?_⟩
    funext j
    by_cases hj : j = id <;>
      simp [send_packet, check_up env s hup, Py_XINCREF, Py_INCREF, Py_XDECREF, Py_DECREF,
        PyObj.ident, Py_BEGIN_ALLOW_THREADS, Py_END_ALLOW_THREADS, hj]
  · have hconv : PyByteArray_FromObject (PyObj.intSeq (payload.map (fun b => (b.val : Int)))) =
        Except.ok payload := by
      simp only [PyByteArray_FromObject, byteValues_all, if_true, byteValues_back]
    rw [send_packet_other env s _ hup (by intro _ _ h; cases h), hconv]
    refine ⟨rfl, newEvents_append _ _ _ ?_⟩
    simp [Py_END_ALLOW_THREADS, Py_BEGIN_ALLOW_THREADS, hsz]

/-- C5 (amended) at a concrete payload: the three bytes 1, 2, 255. -/
theorem send_packet_forwards_payload_witness :
    newEvents s0 (send_packet envUp [PyObj.bytes [1, 2, 255]] s0).2 =
      [Event.lora_initialized, Event.saveThread,
        Event.lora_send_packet MsgOwner.fresh [1, 2, 255] 3, Event.restoreThread] ∧
    newEvents s0 (send_packet envUp [PyObj.bytearray 4 [1, 2, 255]] s0).2 =
      [Event.lora_initialized, Event.saveThread,
        Event.lora_send_packet (MsgOwner.argument 4) [1, 2, 255] 3, Event.restoreThread] ∧
    newEvents s0 (send_packet envUp [PyObj.intSeq [1, 2, 255]] s0).2 =
      [Event.lora_initialized, Event.saveThread,
        Event.lora_send_packet MsgOwner.fresh [1, 2, 255] 3, Event.restoreThread] :=
  ⟨(send_packet_forwards_payload envUp s0 [1, 2, 255] 4 rfl (by decide)).1.2,
    (send_packet_forwards_payload envUp s0 [1, 2, 255] 4 rfl (by decide)).2.1.2.1,
    (send_packet_forwards_payload envUp s0 [1, 2, 255] 4 rfl (by decide)).2.2.2⟩

/-! ## The trampoline -/

theorem packet_received_empty (e : Env) (s : State) (h : s.callback_function = Option.none) :
    __packet_received e s = s := by
  simp [__packet_received, h]

theorem packet_received_function (e : Env) (s : State) (id : Nat)
    (h : s.callback_function = some (PyObj.function id)) :
    (__packet_received e s).trace =
      s.trace ++ [Event.gilEnsure, Event.callObject (PyObj.function id) [], Event.gilRelease] ∧
    (__packet_received e s).callback_function = s.callback_function ∧
    (__packet_received e s).rc = s.rc ∧
    (__packet_received e s).gil = s.gil := by
  refine ⟨?_, ?_, ?_, ?_⟩
  · simp [__packet_received, h, PyGILState_Ensure, PyGILState_Release, PyCallable_Check]
  · simp [__packet_received, h, PyGILState_Ensure, PyGILState_Release, PyCallable_Check]
  · funext j
    simp only [__packet_received, h, PyGILState_Ensure, PyGILState_Release, PyCallable_Check,
      Bool.not_true, Bool.false_eq_true, if_false, log_rc, Py_XDECREF_rc, Py_XINCREF_rc]
    omega
  · simp [__packet_received, h, PyGILState_Ensure, PyGILState_Release, PyCallable_Check]

theorem notifications_function (envs : List Env) (s : State) (id : Nat)
    (h : s.callback_function = some (PyObj.function id)) :
    (notifications envs s).trace = s.trace ++ firings (PyObj.function id) envs.length ∧
    (notifications envs s).callback_function = s.callback_function ∧
    (notifications envs s).rc = s.rc ∧
    (notifications envs s).gil = s.gil := by
  induction envs generalizing s with
  | nil => simp [notifications, firings]
  | cons e es ih =>
    obtain ⟨h1, h2, h3, h4⟩ := packet_received_function e s id h
    have ih2 := ih (__packet_received e s) (h2.trans h)
    have hstep : notifications (e :: es) s = notifications es (__packet_received e s) := rfl
    rw [hstep]
    refine ⟨?_, ih2.2.1.trans h2, ih2.2.2.1.trans h3, ih2.2.2.2.trans h4⟩
    rw [ih2.1, h1]
    simp [firings]

/-- What the trampoline appends to the trace depends on the callback slot only. -/
theorem packet_received_events_congr (e : Env) (s t : State)
    (h : s.callback_function = t.callback_function) :
    newEvents s (__packet_received e s) = newEvents t (__packet_received e t) := by
  cases hs : s.callback_function with
  | none =>
    have ht : t.callback_function = Option.none := by rw [← h, hs]
    simp [packet_received_empty e s hs, packet_received_empty e t ht, newEvents]
  | some cb =>
    have ht : t.callback_function = some cb := by rw [← h, hs]
    cases hc : PyCallable_Check cb <;>
      simp [__packet_received, hs, ht, hc, PyGILState_Ensure, PyGILState_Release, newEvents]

/-! ## C6, C7, C10: `on_receive` -/

theorem on_receive_function (env : Env) (s : State) (id : Nat)
    (hup : env.initialized = true) :
    on_receive env [PyObj.function id] s =
      (PyResult.ok Ret.pyNone,
        log (Event.lora_on_receive Handler.packet_received)
          { Py_XDECREF s.callback_function
              (Py_XINCREF (some (PyObj.function id)) (log Event.lora_initialized s)) with
            callback_function := some (PyObj.function id) }) := by
  simp [on_receive, check_up env s hup, parse_O, PyCallable_Check]

theorem on_receive_none (env : Env) (s : State) (hup : env.initialized = true) :
    on_receive env [PyObj.none] s =
      (PyResult.ok Ret.pyNone,
        log (Event.lora_on_receive Handler.NULL)
          { Py_XDECREF s.callback_function (log Event.lora_initialized s) with
            callback_function := Option.none }) := by
  simp [on_receive, check_up env s hup, parse_O]

/-- C6: with the driver initialised, `on_receive(f)` for a callable `f` succeeds and
stores `f`; from then on every run of the trampoline calls `f` exactly once with the
empty argument tuple between taking and releasing the lock, and leaves the slot, the
reference counts and the lock state as they were whatever `f` returned; a following
`on_receive(None)` empties the slot and calls `lora_on_receive(NULL)`, after which a
run of the trampoline leaves the state untouched. -/
theorem callback_fires_until_cleared (env envN : Env) (id : Nat) (envs : List Env)
    (s : State) (hup : env.initialized = true) (hupN : envN.initialized = true) :
    (on_receive env [PyObj.function id] s).1 = PyResult.ok Ret.pyNone ∧
    (on_receive env [PyObj.function id] s).2.callback_function = some (PyObj.function id) ∧
    (∀ e : Env,
      newEvents (on_receive env [PyObj.function id] s).2
          (__packet_received e (on_receive env [PyObj.function id] s).2) =
        [Event.gilEnsure, Event.callObject (PyObj.function id) [], Event.gilRelease] ∧
      (__packet_received e (on_receive env [PyObj.function id] s).2).callback_function =
        some (PyObj.function id) ∧
      (__packet_received e (on_receive env [PyObj.function id] s).2).rc =
        (on_receive env [PyObj.function id] s).2.rc ∧
      (__packet_received e (on_receive env [PyObj.function id] s).2).gil =
        (on_receive env [PyObj.function id] s).2.gil) ∧
    newEvents (on_receive env [PyObj.function id] s).2
        (notifications envs (on_receive env [PyObj.function id] s).2) =
      firings (PyObj.function id) envs.length ∧
    (on_receive envN [PyObj.none]
        (notifications envs (on_receive env [PyObj.function id] s).2)).1 =
      PyResult.ok Ret.pyNone ∧
    (on_receive envN [PyObj.none]
        (notifications envs (on_receive env [PyObj.function id] s).2)).2.callback_function =
      Option.none ∧
    newEvents (notifications envs (on_receive env [PyObj.function id] s).2)
        (on_receive envN [PyObj.none]
          (notifications envs (on_receive env [PyObj.function id] s).2)).2 =
      [Event.lora_initialized, Event.lora_on_receive Handler.NULL] ∧
    (∀ e : Env,
      __packet_received e
          (on_receive envN [PyObj.none]
            (notifications envs (on_receive env [PyObj.function id] s).2)).2 =
        (on_receive envN [PyObj.none]
          (notifications envs (on_receive env [PyObj.function id] s).2)).2) := by
  have hslot : (on_receive env [PyObj.function id] s).2.callback_function =
      some (PyObj.function id) := by
    rw [on_receive_function env s id hup]
    rfl
  generalize (on_receive env [PyObj.function id] s).2 = s1 at hslot ⊢
  have hres : (on_receive env [PyObj.function id] s).1 = PyResult.ok Ret.pyNone := by
    rw [on_receive_function env s id hup]
  have hrun := notifications_function envs s1 id hslot
  generalize notifications envs s1 = s2 at hrun ⊢
  have hclear := on_receive_none envN s2 hupN
  refine ⟨hres, hslot, fun e => ?_, newEvents_append _ _ _ hrun.1, ?_, ?_, ?_, fun e => ?_⟩
  · obtain ⟨h1, h2, h3, h4⟩ := packet_received_function e s1 id hslot
    exact ⟨newEvents_append _ _ _ h1, h2.trans hslot, h3, h4⟩
  · rw [hclear]
  · rw [hclear]
    rfl
  · rw [hclear]
    exact newEvents_append _ _ _ (by simp)
  · apply packet_received_empty
    rw [hclear]
    rfl

/-- C6 at a concrete run: register function 5, two notifications, clear. -/
theorem callback_fires_until_cleared_witness :
    newEvents (on_receive envUp [PyObj.function 5] s0).2
        (notifications [envUp, envUp] (on_receive envUp [PyObj.function 5] s0).2) =
      firings (PyObj.function 5) 2 ∧
    (on_receive envUp [PyObj.none]
        (notifications [envUp, envUp] (on_receive envUp [PyObj.function 5] s0).2)).2.callback_function =
      Option.none :=
  ⟨(callback_fires_until_cleared envUp envUp 5 [envUp, envUp] s0 rfl rfl).2.2.2.1,
    (callback_fires_until_cleared envUp envUp 5 [envUp, envUp] s0 rfl rfl).2.2.2.2.2.1⟩

theorem on_receive_step_owned (env : Env) (s : State) (arg : PyObj)
    (hup : env.initialized = true)
    (harg : arg = PyObj.none ∨ ∃ id, arg = PyObj.function id) (i : Nat) :
    (on_receive env [arg] s).2.rc i - owned (on_receive env [arg] s).2 i =
      s.rc i - owned s i := by
  rcases harg with rfl | ⟨id, rfl⟩
  · rw [on_receive_none env s hup]
    simp only [owned, log_rc, log_callback, Py_XDECREF_rc]
    cases s.callback_function <;> simp
  · rw [on_receive_function env s id hup]
    simp only [owned, log_rc, log_callback, Py_XDECREF_rc, Py_XINCREF_rc, PyObj.ident]
    cases s.callback_function
    · simp
    · simp
      omega

theorem registrations_owned (calls : List (Env × PyObj)) (s : State)
    (hcalls : ∀ c ∈ calls, c.1.initialized = true ∧
      (c.2 = PyObj.none ∨ ∃ id, c.2 = PyObj.function id)) (i : Nat) :
    (registrations calls s).rc i - owned (registrations calls s) i = s.rc i - owned s i := by
  induction calls generalizing s with
  | nil => rfl
  | cons c cs ih =>
    have hstep : registrations (c :: cs) s = registrations cs (on_receive c.1 [c.2] s).2 := rfl
    have hc := hcalls c (List.mem_cons_self _ _)
    rw [hstep, ih _ (fun d hd => hcalls d (List.mem_cons_of_mem _ hd))]
    exact on_receive_step_owned c.1 s c.2 hc.1 hc.2 i

/-- C7: starting from the empty slot, after every series of successful `on_receive`
calls the reference count of each object exceeds its initial value by one if it is
the installed callable and by nothing otherwise.  Replacing `f` by another callable
`g` takes one reference from `f`, gives one to `g`, touches no other count, and the
trampoline then calls `g` only; clearing with None takes one reference from `f`;
registering `f` again raises its count before lowering it, so the count ends as it
was and `f` is not deallocated on the way. -/
theorem callback_reference_ownership (calls : List (Env × PyObj)) (env e : Env)
    (s : State) (f g : Nat)
    (hcalls : ∀ c ∈ calls, c.1.initialized = true ∧
      (c.2 = PyObj.none ∨ ∃ id, c.2 = PyObj.function id))
    (hempty : s.callback_function = Option.none) (hup : env.initialized = true) :
    (∀ i, (registrations calls s).rc i = s.rc i + owned (registrations calls s) i) ∧
    (∀ t : State, t.callback_function = some (PyObj.function f) → f ≠ g →
      (on_receive env [PyObj.function g] t).2.rc f = t.rc f - 1 ∧
      (on_receive env [PyObj.function g] t).2.rc g = t.rc g + 1 ∧
      (∀ i, i ≠ f → i ≠ g → (on_receive env [PyObj.function g] t).2.rc i = t.rc i) ∧
      (on_receive env [PyObj.function g] t).2.callback_function = some (PyObj.function g) ∧
      newEvents (on_receive env [PyObj.function g] t).2
          (__packet_received e (on_receive env [PyObj.function g] t).2) =
        [Event.gilEnsure, Event.callObject (PyObj.function g) [], Event.gilRelease]) ∧
    (∀ t : State, t.callback_function = some (PyObj.function f) →
      (on_receive env [PyObj.none] t).2.rc f = t.rc f - 1 ∧
      (∀ i, i ≠ f → (on_receive env [PyObj.none] t).2.rc i = t.rc i) ∧
      (on_receive env [PyObj.none] t).2.callback_function = Option.none) ∧
    (∀ t : State, t.callback_function = some (PyObj.function f) →
      (on_receive env [PyObj.function f] t).2 =
        log (Event.lora_on_receive Handler.packet_received)
          { Py_XDECREF (some (PyObj.function f))
              (Py_XINCREF (some (PyObj.function f)) (log Event.lora_initialized t)) with
            callback_function := some (PyObj.function f) } ∧
      (Py_XINCREF (some (PyObj.function f)) (log Event.lora_initialized t)).rc f = t.rc f + 1 ∧
      (on_receive env [PyObj.function f] t).2.rc = t.rc ∧
      (on_receive env [PyObj.function f] t).2.callback_function = some (PyObj.function f) ∧
      (0 < t.rc f → (on_receive env [PyObj.function f] t).2.freed = t.freed)) := by
  refine ⟨fun i => ?_, fun t ht hfg => ?_, fun t ht => ?_, fun t ht => ?_⟩
  · have h := registrations_owned calls s hcalls i
    simp only [owned, hempty] at h
    have h2 : owned (registrations calls s) i =
        (match (registrations calls s).callback_function with
          | some o => if o.ident = some i then 1 else 0
          | Option.none => 0) := rfl
    omega
  · have hslot : (on_receive env [PyObj.function g] t).2.callback_function =
        some (PyObj.function g) := by
      rw [on_receive_function env t g hup]
      rfl
    have hgf : ¬ g = f := fun h => hfg h.symm
    refine ⟨?_, ?_, fun i hif hig => ?_, hslot, ?_⟩
    · rw [on_receive_function env t g hup]
      simp [ht, Py_XDECREF_rc, Py_XINCREF_rc, PyObj.ident, hgf]
    · rw [on_receive_function env t g hup]
      simp [ht, Py_XDECREF_rc, Py_XINCREF_rc, PyObj.ident, hfg]
    · have h1 : ¬ g = i := fun h => hig h.symm
      have h2 : ¬ f = i := fun h => hif h.symm
      rw [on_receive_function env t g hup]
      simp [ht, Py_XDECREF_rc, Py_XINCREF_rc, PyObj.ident, h1, h2]
    · exact newEvents_append _ _ _ (packet_received_function e _ g hslot).1
  · rw [on_receive_none env t hup]
    refine ⟨?_, fun i hif => ?_, rfl⟩
    · simp [ht, Py_XDECREF_rc, PyObj.ident]
    · have h2 : ¬ f = i := fun h => hif h.symm
      simp [ht, Py_XDECREF_rc, PyObj.ident, h2]
  · rw [on_receive_function env t f hup]
    refine ⟨by rw [ht], ?_, ?_, rfl, fun hpos => ?_⟩
    · simp [Py_XINCREF_rc, PyObj.ident]
    · funext i
      by_cases hi : f = i <;> simp [ht, Py_XDECREF_rc, Py_XINCREF_rc, PyObj.ident, hi]
    · have hne : ¬ t.rc f = 0 := by omega
      simp [ht, Py_XDECREF, Py_DECREF, Py_XINCREF, Py_INCREF, PyObj.ident, hne]

/-- C7 at a concrete series: register function 1, then function 2, then clear; and
function 2 replacing function 1. -/
theorem callback_reference_ownership_witness :
    (registrations [(envUp, PyObj.function 1), (envUp, PyObj.function 2),
        (envUp, PyObj.none)] s0).rc 2 =
      s0.rc 2 + owned (registrations [(envUp, PyObj.function 1), (envUp, PyObj.function 2),
        (envUp, PyObj.none)] s0) 2 ∧
    (on_receive envUp [PyObj.function 2] (on_receive envUp [PyObj.function 1] s0).2).2.rc 1 =
      (on_receive envUp [PyObj.function 1] s0).2.rc 1 - 1 :=
  ⟨(callback_reference_ownership
      [(envUp, PyObj.function 1), (envUp, PyObj.function 2), (envUp, PyObj.none)]
      envUp envUp s0 1 2
      (by
        intro c hc
        simp only [List.mem_cons, List.mem_singleton, List.not_mem_nil, or_false] at hc
        rcases hc with rfl | rfl | rfl
        · exact ⟨rfl, Or.inr ⟨1, rfl⟩⟩
        · exact ⟨rfl, Or.inr ⟨2, rfl⟩⟩
        · exact ⟨rfl, Or.inl rfl⟩)
      rfl rfl).1 2,
    ((callback_reference_ownership [] envUp envUp s0 1 2
      (by
        intro c hc
        cases hc)
      rfl rfl).2.1 (on_receive envUp [PyObj.function 1] s0).2 rfl (by decide)).1⟩

theorem on_receive_rejected (env : Env) (args : List PyObj) (s : State)
    (h : env.initialized = false ∨ args.length ≠ 1 ∨
      ∃ a, args = [a] ∧ a ≠ PyObj.none ∧ PyCallable_Check a = false) :
    ∃ err, on_receive env args s = (PyResult.null err, log Event.lora_initialized s) := by
  cases hi : env.initialized with
  | false =>
    exact ⟨PyErr.RuntimeError "Lora not initialized", by simp [on_receive, check_down env s hi]⟩
  | true =>
    rcases h with h | h | ⟨a, rfl, hn, hc⟩
    · rw [hi] at h
      cases h
    · rcases args with _ | ⟨a, _ | ⟨b, r⟩⟩
      · exact ⟨PyErr.TypeError, by simp [on_receive, check_up env s hi, parse_O]⟩
      · simp at h
      · exact ⟨PyErr.TypeError, by simp [on_receive, check_up env s hi, parse_O]⟩
    · exact ⟨PyErr.RuntimeError "Parameter for on_receive() must be callable",
        by simp [on_receive, check_up env s hi, parse_O, hn, hc]⟩

/-- C10: a call of `on_receive` fails exactly when the driver is not initialised,
the argument tuple does not hold exactly one object, or that object is neither None
nor callable.  Such a call returns NULL with an exception set and changes nothing
but the trace, to which it adds the `lora_initialized()` query only: the callback
slot, every reference count and the set of deallocated objects are as before,
`lora_on_receive` is not called, and a run of the trampoline does afterwards what
it would have done before. -/
theorem on_receive_failure_is_atomic (env : Env) (args : List PyObj) (s : State) :
    ((env.initialized = false ∨ args.length ≠ 1 ∨
        ∃ a, args = [a] ∧ a ≠ PyObj.none ∧ PyCallable_Check a = false) →
      (∃ err, (on_receive env args s).1 = PyResult.null err) ∧
      (on_receive env args s).2 = log Event.lora_initialized s ∧
      (on_receive env args s).2.callback_function = s.callback_function ∧
      (on_receive env args s).2.rc = s.rc ∧
      (on_receive env args s).2.freed = s.freed ∧
      newEvents s (on_receive env args s).2 = [Event.lora_initialized] ∧
      (∀ e : Env,
        newEvents (on_receive env args s).2 (__packet_received e (on_receive env args s).2) =
          newEvents s (__packet_received e s))) ∧
    (∀ err, (on_receive env args s).1 = PyResult.null err →
      (env.initialized = false ∨ args.length ≠ 1 ∨
        ∃ a, args = [a] ∧ a ≠ PyObj.none ∧ PyCallable_Check a = false)) := by
  constructor
  · intro h
    obtain ⟨err, herr⟩ := on_receive_rejected env args s h
    rw [herr]
    exact ⟨⟨err, rfl⟩, rfl, rfl, rfl, rfl, newEvents_append _ _ _ rfl,
      fun e => packet_received_events_congr e _ _ rfl⟩
  · intro err herr
    cases hi : env.initialized with
    | false => exact Or.inl rfl
    | true =>
      right
      rcases args with _ | ⟨a, _ | ⟨b, r⟩⟩
      · left
        simp
      · right
        refine ⟨a, rfl, ?_, ?_⟩
        · rintro rfl
          rw [on_receive_none env s hi] at herr
          cases herr
        · cases hc : PyCallable_Check a with
          | false => rfl
          | true =>
            cases a <;> simp [PyCallable_Check] at hc
            rename_i id
            rw [on_receive_function env s id hi] at herr
            cases herr
      · left
        simp

/-- C10 at a concrete call: with function 5 registered, `on_receive(42)` fails and
the trampoline still calls function 5. -/
theorem on_receive_failure_is_atomic_witness :
    (on_receive envUp [PyObj.int 42] (on_receive envUp [PyObj.function 5] s0).2).2.callback_function =
      some (PyObj.function 5) ∧
    newEvents (on_receive envUp [PyObj.function 5] s0).2
        (on_receive envUp [PyObj.int 42] (on_receive envUp [PyObj.function 5] s0).2).2 =
      [Event.lora_initialized] :=
  ⟨((on_receive_failure_is_atomic envUp [PyObj.int 42]
      (on_receive envUp [PyObj.function 5] s0).2).1
        (Or.inr (Or.inr ⟨PyObj.int 42, rfl, by decide, rfl⟩))).2.2.1,
    ((on_receive_failure_is_atomic envUp [PyObj.int 42]
      (on_receive envUp [PyObj.function 5] s0).2).1
        (Or.inr (Or.inr ⟨PyObj.int 42, rfl, by decide, rfl⟩))).2.2.2.2.2.1⟩

/-! ## C8: the lock around the blocking driver calls -/

theorem send_packet_outcome (env : Env) (args : List PyObj) (s : State) :
    ((send_packet env args s).2.trace = s.trace ++ [Event.lora_initialized] ∧
      (send_packet env args s).2.gil = s.gil) ∨
    (∃ owner bs,
      (send_packet env args s).2.trace =
        s.trace ++ [Event.lora_initialized, Event.saveThread,
          Event.lora_send_packet owner bs (toCInt bs.length), Event.restoreThread] ∧
      (send_packet env args s).2.gil = true) := by
  cases hi : env.initialized with
  | false =>
    left
    simp [send_packet, check_down env s hi]
  | true =>
    rcases args with _ | ⟨a, _ | ⟨b, r⟩⟩
    · left
      simp [send_packet, check_up env s hi]
    · by_cases hb : ∃ id b, a = PyObj.bytearray id b
      · obtain ⟨id, b, rfl⟩ := hb
        right
        refine ⟨MsgOwner.argument id, b, (send_packet_bytearray env s id b hi).2, ?_⟩
        simp [send_packet, check_up env s hi, Py_END_ALLOW_THREADS]
      · have hna : ∀ id b, a ≠ PyObj.bytearray id b := fun id b h => hb ⟨id, b, h⟩
        rw [send_packet_other env s a hi hna]
        cases PyByteArray_FromObject a with
        | error err =>
          left
          simp
        | ok bs =>
          right
          exact ⟨MsgOwner.fresh, bs, by simp [Py_END_ALLOW_THREADS, Py_BEGIN_ALLOW_THREADS],
            by simp [Py_END_ALLOW_THREADS]⟩
    · left
      simp [send_packet, check_up env s hi]

theorem wait_for_packet_outcome (env : Env) (args : List PyObj) (s : State) :
    ((wait_for_packet env args s).2.trace = s.trace ++ [Event.lora_initialized] ∧
      (wait_for_packet env args s).2.gil = s.gil) ∨
    (∃ timeout,
      (wait_for_packet env args s).2.trace =
        s.trace ++ [Event.lora_initialized, Event.saveThread,
          Event.lora_wait_for_packet timeout, Event.restoreThread] ∧
      (wait_for_packet env args s).2.gil = true) := by
  cases hi : env.initialized with
  | false =>
    left
    simp [wait_for_packet, check_down env s hi]
  | true =>
    cases hp : parse_opt_i (-1) args with
    | error err =>
      left
      simp [wait_for_packet, check_up env s hi, hp]
    | ok timeout =>
      right
      exact ⟨timeout, by
        simp [wait_for_packet, check_up env s hi, hp, Py_END_ALLOW_THREADS,
          Py_BEGIN_ALLOW_THREADS]⟩

theorem unlocked_of_outcome (evs : List Event) (ev0 : Event) (hb : ev0.isBlocking = true)
    (h : evs = [Event.lora_initialized] ∨
      evs = [Event.lora_initialized, Event.saveThread, ev0, Event.restoreThread]) :
    blockingOnlyUnlocked true evs = true ∧
    (∀ ev ∈ evs, ev.isBlocking = true →
      evs = [Event.lora_initialized, Event.saveThread, ev, Event.restoreThread]) := by
  rcases h with rfl | rfl
  · refine ⟨rfl, ?_⟩
    intro ev hev hbl
    simp only [List.mem_singleton] at hev
    subst hev
    cases hbl
  · refine ⟨?_, ?_⟩
    · simp [blockingOnlyUnlocked, Event.isBlocking, Event.lockAfter]
    · intro ev hev hbl
      simp only [List.mem_cons, List.mem_singleton, List.not_mem_nil, or_false] at hev
      rcases hev with rfl | rfl | rfl | rfl
      · cases hbl
      · cases hbl
      · rfl
      · cases hbl

/-- C8: with the lock held on entry, `send_packet` and `wait_for_packet` never call
the blocking driver entry point while the lock is held: whenever `lora_send_packet`
or `lora_wait_for_packet` appears among the events of the call, it stands directly
between the release and the reacquisition of the lock, and on every return path the
lock is held again. -/
theorem blocking_calls_run_unlocked (env : Env) (args : List PyObj) (s : State)
    (hheld : s.gil = true) :
    ((send_packet env args s).2.gil = true ∧
      blockingOnlyUnlocked true (newEvents s (send_packet env args s).2) = true ∧
      (∀ ev ∈ newEvents s (send_packet env args s).2, ev.isBlocking = true →
        newEvents s (send_packet env args s).2 =
          [Event.lora_initialized, Event.saveThread, ev, Event.restoreThread])) ∧
    ((wait_for_packet env args s).2.gil = true ∧
      blockingOnlyUnlocked true (newEvents s (wait_for_packet env args s).2) = true ∧
      (∀ ev ∈ newEvents s (wait_for_packet env args s).2, ev.isBlocking = true →
        newEvents s (wait_for_packet env args s).2 =
          [Event.lora_initialized, Event.saveThread, ev, Event.restoreThread])) := by
  constructor
  · rcases send_packet_outcome env args s with ⟨ht, hg⟩ | ⟨owner, bs, ht, hg⟩
    · exact ⟨hg.trans hheld,
        unlocked_of_outcome _ (Event.lora_wait_for_packet 0) rfl
          (Or.inl (newEvents_append _ _ _ ht))⟩
    · exact ⟨hg,
        unlocked_of_outcome _ (Event.lora_send_packet owner bs (toCInt bs.length)) rfl
          (Or.inr (newEvents_append _ _ _ ht))⟩
  · rcases wait_for_packet_outcome env args s with ⟨ht, hg⟩ | ⟨timeout, ht, hg⟩
    · exact ⟨hg.trans hheld,
        unlocked_of_outcome _ (Event.lora_wait_for_packet 0) rfl
          (Or.inl (newEvents_append _ _ _ ht))⟩
    · exact ⟨hg,
        unlocked_of_outcome _ (Event.lora_wait_for_packet timeout) rfl
          (Or.inr (newEvents_append _ _ _ ht))⟩

/-- C8 at concrete calls: sending one byte and waiting without a timeout. -/
theorem blocking_calls_run_unlocked_witness :
    ((send_packet envUp [PyObj.bytes [7]] s0).2.gil = true ∧
      blockingOnlyUnlocked true (newEvents s0 (send_packet envUp [PyObj.bytes [7]] s0).2) = true ∧
      (∀ ev ∈ newEvents s0 (send_packet envUp [PyObj.bytes [7]] s0).2, ev.isBlocking = true →
        newEvents s0 (send_packet envUp [PyObj.bytes [7]] s0).2 =
          [Event.lora_initialized, Event.saveThread, ev, Event.restoreThread])) ∧
    newEvents s0 (send_packet envUp [PyObj.bytes [7]] s0).2 =
      [Event.lora_initialized, Event.saveThread,
        Event.lora_send_packet MsgOwner.fresh [7] 1, Event.restoreThread] :=
  ⟨(blocking_calls_run_unlocked envUp [PyObj.bytes [7]] s0 rfl).1, rfl⟩

/-! ## C9: the guard comes first, the driver call follows the parse -/

theorem parse_i_ok (args : List PyObj) (v : Int) (h : parse_i args = Except.ok v) :
    args = [PyObj.int v] := by
  rcases args with _ | ⟨a, _ | ⟨b, r⟩⟩
  · cases h
  · rw [((conv_i_iff a v).1 h).1]
  · cases h

theorem parse_l_ok (args : List PyObj) (v : Int) (h : parse_l args = Except.ok v) :
    args = [PyObj.int v] := by
  rcases args with _ | ⟨a, _ | ⟨b, r⟩⟩
  · cases h
  · rw [((conv_l_iff a v).1 h).1]
  · cases h

theorem parse_opt_i_ok (args : List PyObj) (v : Int) (h : parse_opt_i (-1) args = Except.ok v) :
    (args = [] ∧ v = -1) ∨ args = [PyObj.int v] := by
  rcases args with _ | ⟨a, _ | ⟨b, r⟩⟩
  · left
    cases h
    exact ⟨rfl, rfl⟩
  · right
    rw [((conv_i_iff a v).1 h).1]
  · cases h

/-- C9 (counterexample): on an initialised driver the argument tuple `(42,)` of
`on_receive` parses, yet `lora_on_receive` is not called: the call fails because 42
is neither None nor callable. -/
theorem on_receive_parsed_but_not_forwarded :
    envUp.initialized = true ∧
    parse_O [PyObj.int 42] = Except.ok (PyObj.int 42) ∧
    (on_receive envUp [PyObj.int 42] s0).1 =
      PyResult.null (PyErr.RuntimeError "Parameter for on_receive() must be callable") ∧
    (on_receive envUp [PyObj.int 42] s0).2.trace = [Event.lora_initialized] :=
  ⟨rfl, rfl, rfl, rfl⟩

/-- C9 (amended): each of the twenty wrappers that call `check()` does so before it
looks at its arguments.  When the driver is not initialised the result is the error
"Lora not initialized" for every argument tuple, the `lora_initialized()` query is
the only driver call and the callback slot is unchanged.  When it is initialised:
a wrapper without parameters calls its driver function once; a wrapper with an
integer parameter whose argument tuple parses calls it once with the very integer
the caller passed (`wait_for_packet` with -1 when none was passed); `send_packet`
with one argument that is or converts to a bytearray calls `lora_send_packet` once
with that buffer and its length as a C `int`; `on_receive` with one argument calls
`lora_on_receive` once, with NULL for None and with the trampoline for a callable,
which it stores, and for any other object fails without a driver call. -/
theorem guard_then_forward (env : Env) (args : List PyObj) (kw : List (String × PyObj))
    (s : State) :
    (env.initialized = false →
      ∀ op ∈ [Op.reset, Op.explicit_header_mode, Op.implicit_header_mode, Op.idle, Op.sleep,
          Op.receive, Op.set_tx_power, Op.set_frequency, Op.set_spreading_factor,
          Op.set_bandwidth, Op.set_coding_rate, Op.set_preamble_length, Op.set_sync_word,
          Op.enable_crc, Op.disable_crc, Op.packet_rssi, Op.packet_snr, Op.send_packet,
          Op.on_receive, Op.wait_for_packet],
        call op env args kw s =
          (PyResult.null (PyErr.RuntimeError "Lora not initialized"),
            log Event.lora_initialized s) ∧
        (call op env args kw s).2.callback_function = s.callback_function ∧
        newEvents s (call op env args kw s).2 = [Event.lora_initialized]) ∧
    (env.initialized = true →
      (reset env args s = (PyResult.ok Ret.pyNone,
          log Event.lora_reset (log Event.lora_initialized s)) ∧
        explicit_header_mode env args s = (PyResult.ok Ret.pyNone,
          log Event.lora_explicit_header_mode (log Event.lora_initialized s)) ∧
        idle env args s = (PyResult.ok Ret.pyNone,
          log Event.lora_idle (log Event.lora_initialized s)) ∧
        _sleep env args s = (PyResult.ok Ret.pyNone,
          log Event.lora_sleep (log Event.lora_initialized s)) ∧
        receive env args s = (PyResult.ok Ret.pyNone,
          log Event.lora_receive (log Event.lora_initialized s)) ∧
        enable_crc env args s = (PyResult.ok Ret.pyNone,
          log Event.lora_enable_crc (log Event.lora_initialized s)) ∧
        disable_crc env args s = (PyResult.ok Ret.pyNone,
          log Event.lora_disable_crc (log Event.lora_initialized s)) ∧
        packet_rssi env args s = (PyResult.ok (Ret.long env.rssi),
          log Event.lora_packet_rssi (log Event.lora_initialized s)) ∧
        packet_snr env args s = (PyResult.ok (Ret.float env.snr),
          log Event.lora_packet_snr (log Event.lora_initialized s))) ∧
      (∀ v, parse_i args = Except.ok v →
        args = [PyObj.int v] ∧
        implicit_header_mode env args s = (PyResult.ok Ret.pyNone,
          log (Event.lora_implicit_header_mode v) (log Event.lora_initialized s)) ∧
        set_tx_power env args s = (PyResult.ok Ret.pyNone,
          log (Event.lora_set_tx_power v) (log Event.lora_initialized s)) ∧
        set_spreading_factor env args s = (PyResult.ok Ret.pyNone,
          log (Event.lora_set_spreading_factor v) (log Event.lora_initialized s)) ∧
        set_coding_rate env args s = (PyResult.ok Ret.pyNone,
          log (Event.lora_set_coding_rate v) (log Event.lora_initialized s)) ∧
        set_sync_word env args s = (PyResult.ok Ret.pyNone,
          log (Event.lora_set_sync_word v) (log Event.lora_initialized s))) ∧
      (∀ v, parse_l args = Except.ok v →
        args = [PyObj.int v] ∧
        set_frequency env args s = (PyResult.ok Ret.pyNone,
          log (Event.lora_set_frequency v) (log Event.lora_initialized s)) ∧
        set_bandwidth env args s = (PyResult.ok Ret.pyNone,
          log (Event.lora_set_bandwidth v) (log Event.lora_initialized s)) ∧
        set_preamble_length env args s = (PyResult.ok Ret.pyNone,
          log (Event.lora_set_preamble_length v) (log Event.lora_initialized s))) ∧
      (∀ v, parse_opt_i (-1) args = Except.ok v →
        ((args = [] ∧ v = -1) ∨ args = [PyObj.int v]) ∧
        (wait_for_packet env args s).1 = PyResult.ok Ret.pyNone ∧
        newEvents s (wait_for_packet env args s).2 =
          [Event.lora_initialized, Event.saveThread, Event.lora_wait_for_packet v,
            Event.restoreThread]) ∧
      (∀ id bs, args = [PyObj.bytearray id bs] →
        (send_packet env args s).1 = PyResult.ok Ret.pyNone ∧
        newEvents s (send_packet env args s).2 =
          [Event.lora_initialized, Event.saveThread,
            Event.lora_send_packet (MsgOwner.argument id) bs (toCInt bs.length),
            Event.restoreThread]) ∧
      (∀ arg bs, args = [arg] → (∀ id b, arg ≠ PyObj.bytearray id b) →
        PyByteArray_FromObject arg = Except.ok bs →
        (send_packet env args s).1 = PyResult.ok Ret.pyNone ∧
        newEvents s (send_packet env args s).2 =
          [Event.lora_initialized, Event.saveThread,
            Event.lora_send_packet MsgOwner.fresh bs (toCInt bs.length),
            Event.restoreThread]) ∧
      (∀ funct, parse_O args = Except.ok funct →
        args = [funct] ∧
        (funct = PyObj.none →
          (on_receive env args s).1 = PyResult.ok Ret.pyNone ∧
          (on_receive env args s).2.callback_function = Option.none ∧
          newEvents s (on_receive env args s).2 =
            [Event.lora_initialized, Event.lora_on_receive Handler.NULL]) ∧
        (PyCallable_Check funct = true →
          (on_receive env args s).1 = PyResult.ok Ret.pyNone ∧
          (on_receive env args s).2.callback_function = some funct ∧
          newEvents s (on_receive env args s).2 =
            [Event.lora_initialized, Event.lora_on_receive Handler.packet_received]) ∧
        (funct ≠ PyObj.none → PyCallable_Check funct = false →
          on_receive env args s =
            (PyResult.null (PyErr.RuntimeError "Parameter for on_receive() must be callable"),
              log Event.lora_initialized s)))) := by
  constructor
  · intro hdown op hop
    have hc := check_down env s hdown
    simp only [List.mem_cons, List.mem_singleton, List.not_mem_nil, or_false] at hop
    rcases hop with h | h | h | h | h | h | h | h | h | h | h | h | h | h | h | h | h | h |
      h | h <;> subst h <;>
      simp [call, reset, explicit_header_mode, implicit_header_mode, idle, _sleep,
        receive, set_tx_power, set_frequency, set_spreading_factor, set_bandwidth,
        set_coding_rate, set_preamble_length, set_sync_word, enable_crc, disable_crc,
        packet_rssi, packet_snr, send_packet, on_receive, wait_for_packet, hc, newEvents]
  · intro hup
    have hc := check_up env s hup
    refine ⟨?_, ?_, ?_, ?_, ?_, ?_, ?_⟩
    · simp [reset, explicit_header_mode, idle, _sleep, receive, enable_crc, disable_crc,
        packet_rssi, packet_snr, hc]
    · intro v hv
      refine ⟨parse_i_ok args v hv, ?_⟩
      simp [implicit_header_mode, set_tx_power, set_spreading_factor, set_coding_rate,
        set_sync_word, hc, hv]
    · intro v hv
      refine ⟨parse_l_ok args v hv, ?_⟩
      simp [set_frequency, set_bandwidth, set_preamble_length, hc, hv]
    · intro v hv
      refine ⟨parse_opt_i_ok args v hv, ?_⟩
      simp [wait_for_packet, hc, hv, newEvents, Py_END_ALLOW_THREADS, Py_BEGIN_ALLOW_THREADS]
    · rintro id bs rfl
      have h := send_packet_bytearray env s id bs hup
      exact ⟨h.1, newEvents_append _ _ _ h.2⟩
    · rintro arg bs rfl hna hconv
      rw [send_packet_other env s arg hup hna, hconv]
      exact ⟨rfl, newEvents_append _ _ _
        (by simp [Py_END_ALLOW_THREADS, Py_BEGIN_ALLOW_THREADS])⟩
    · intro funct hf
      have hargs : args = [funct] := by
        rcases args with _ | ⟨a, _ | ⟨b, r⟩⟩
        · cases hf
        · cases hf
          rfl
        · cases hf
      subst hargs
      refine ⟨rfl, ?_, ?_, ?_⟩
      · rintro rfl
        rw [on_receive_none env s hup]
        exact ⟨rfl, rfl, newEvents_append _ _ _ (by simp)⟩
      · intro hcall
        cases funct <;> simp [PyCallable_Check] at hcall
        rename_i id
        rw [on_receive_function env s id hup]
        exact ⟨rfl, rfl, newEvents_append _ _ _ (by simp)⟩
      · intro hn hcall
        simp [on_receive, hc, parse_O, hn, hcall]

/-- C9 (amended) at concrete calls: `set_frequency` with a malformed argument on an
uninitialised driver, and `set_tx_power(17)` on an initialised one. -/
theorem guard_then_forward_witness :
    call Op.set_frequency envDown [PyObj.str "868"] [] s0 =
      (PyResult.null (PyErr.RuntimeError "Lora not initialized"),
        log Event.lora_initialized s0) ∧
    set_tx_power envUp [PyObj.int 17] s0 =
      (PyResult.ok Ret.pyNone,
        log (Event.lora_set_tx_power 17) (log Event.lora_initialized s0)) :=
  ⟨((guard_then_forward envDown [PyObj.str "868"] [] s0).1 rfl Op.set_frequency
      (by decide)).1,
    (((guard_then_forward envUp [PyObj.int 17] [] s0).2 rfl).2.1 17 rfl).2.2.1⟩

end PyLora
